import Mathlib

/-!
Shallow embedding of the diagnosis / localization pipeline of the
okuani-adamfo API.

Sources embedded here:
- src/okuani-adamfo-api-main/models/diagnosis.js
  (namespace DiagnosisModel: handleVoiceUpload, searchTreatmentInfo,
   generateTreatmentRecommendations, createDiagnosis, the mongoose schema)
- src/controllers/output.js
  (namespace OutputController: SPEAKER_MAPPING, getDefaultSpeaker,
   localizeOutput, processAudioAndLocalize)
- src/controllers/upload.js
  (namespace UploadController: handleVoiceUpload, the revision wired to
   POST /upload/voice in src/routes/upload.js)

Outbound HTTP calls are abstracted by explicit outcome parameters
(Except for calls whose failure the handler catches, plus dedicated
response-shape types).  The mongoose document store is a List Diagnosis;
a document id is its index in the list.
-/

/-- JavaScript string truthiness for an optional string field:
undefined and null are falsy, and so is the empty string. -/
def strTruthy : Option String → Bool
  | none => false
  | some s => s != ""

/-- JavaScript a or-else d for an optional string with a string default,
as in the expression a OR d where a is a string field: yields a when a is
truthy (present and non-empty) and d otherwise. -/
def jsOrStr (a : Option String) (d : String) : String :=
  match a with
  | some s => if s = "" then d else s
  | none => d

/-- JavaScript a OR b where both sides are optional strings, keeping the
optional result (used for speaker selection, where the fallback may be null). -/
def jsOrOpt (a b : Option String) : Option String :=
  if strTruthy a then a else b

/-- First truthy of two optional strings, defaulting to the empty string:
the JavaScript expression a OR b OR the empty string. -/
def firstTruthy (a b : Option String) : String :=
  if strTruthy a then a.getD "" else b.getD ""

/-- A single quote character, as a string. -/
def singleQuote : String := String.singleton (Char.ofNat 39)

/-- The substring relation on strings, stated on their character lists. -/
def containsSubstring (s sub : String) : Prop := sub.data <:+: s.data

/-- The suffix relation on strings, stated on their character lists. -/
def endsWithString (s tail : String) : Prop := tail.data <:+ s.data

/-- The persisted Diagnosis document (mongoose diagnosisSchema in
src/okuani-adamfo-api-main/models/diagnosis.js lines 3-11): voiceInput,
imageResult, localizedText and audioURL default to null; combinedResult
and language are required; createdAt defaults to the current time
(modelled as a Nat timestamp).  Fields absent from the schema
(searchResults, treatmentRecommendations, inputMethod, originalAudioSize)
are dropped by mongoose strict mode and therefore do not appear here. -/
structure Diagnosis where
  voiceInput : Option String
  imageResult : Option String
  combinedResult : String
  localizedText : Option String
  audioURL : Option String
  language : String
  createdAt : Nat
deriving DecidableEq, Repr

/-- One item of the Google Custom Search response, as normalized by
searchTreatmentInfo (title, snippet, link). -/
structure SearchItem where
  title : String
  snippet : String
  link : String
deriving DecidableEq, Repr

namespace DiagnosisModel

/-- Supported ASR languages (SUPPORTED_LANGUAGES object in
src/okuani-adamfo-api-main/models/diagnosis.js): maps a code to its
display name, none when unsupported. -/
def SUPPORTED_LANGUAGES (language : String) : Option String :=
  if language = "tw" then some "Twi"
  else if language = "gaa" then some "Ga"
  else if language = "dag" then some "Dagbani"
  else if language = "yo" then some "Yoruba"
  else if language = "ee" then some "Ewe"
  else if language = "ki" then some "Kikuyu"
  else if language = "ha" then some "Hausa"
  else none

/-- Shape of the Ghana NLP ASR v2 response body: either a bare string, or
an object carrying optional transcription, text and result fields. -/
inductive AsrV2Data where
  | strData (s : String)
  | objData (transcriptionField textField resultField : Option String)
deriving DecidableEq, Repr

/-- Transcription extraction of handleVoiceUpload (diagnosis.js lines
94-106): a string body is taken as is; otherwise the first truthy of the
transcription, text and result fields.  When none of the fields is truthy
the JS code keeps the whole response object as the transcription; calling
trim on it then throws inside the try block and the handler answers 500,
so that branch is modelled as none. -/
def extractTranscription : AsrV2Data → Option String
  | .strData s => some s
  | .objData transcriptionField textField resultField =>
    if strTruthy transcriptionField then transcriptionField
    else if strTruthy textField then textField
    else if strTruthy resultField then resultField
    else none

/-- Observable result of a voice-upload handler: an error response with
its HTTP status, or a 200 response carrying the transcription and the
language code and display name. -/
inductive VoiceUploadResult where
  | errorRes (status : Nat) (errMsg : String)
  | okRes (transcription : String) (language : String) (languageName : String)
deriving DecidableEq, Repr

/-- handleVoiceUpload of src/okuani-adamfo-api-main/models/diagnosis.js
(lines 35-185).  Validates the file and its mime type, resolves the
language (body, then query, then the tw default), validates it, sends the
audio to the ASR service (asrOutcome abstracts that call: error for any
thrown failure, collapsing the per-error-kind 4xx/5xx bodies to one 500
status here since only the 200 path matters to the contract), extracts
the transcription, rejects blank transcriptions with a 500, and otherwise
answers 200 with the trimmed transcription. -/
def handleVoiceUpload (hasFile isAudioMime : Bool)
    (bodyLanguage queryLanguage : Option String)
    (asrOutcome : Except Unit AsrV2Data) : VoiceUploadResult :=
  if !hasFile then .errorRes 400 "No audio file uploaded."
  else if !isAudioMime then .errorRes 400 "Invalid audio file format."
  else
    let language := jsOrStr bodyLanguage (jsOrStr queryLanguage "tw")
    match SUPPORTED_LANGUAGES language with
    | none => .errorRes 400 "Unsupported language"
    | some languageName =>
      match asrOutcome with
      | .error _ => .errorRes 500 "Voice transcription failed."
      | .ok asrData =>
        match extractTranscription asrData with
        | none => .errorRes 500 "Voice transcription failed."
        | some transcription =>
          if transcription.trim = "" then
            .errorRes 500 "No transcription received from ASR service"
          else
            .okRes transcription.trim language languageName

/-- Outcome of the outbound Google Custom Search call made by
searchTreatmentInfo: failure covers every thrown error (network error,
non-2xx response, malformed body breaking the mapping); success carries
the optional items array of the response body. -/
inductive SearchUpstream where
  | failure
  | success (items : Option (List SearchItem))
deriving DecidableEq, Repr

/-- Query augmentation performed by searchTreatmentInfo before the
outbound call (diagnosis.js line 339). -/
def searchQueryString (query : String) : String :=
  query ++ " treatment prevention agriculture farming Ghana"

/-- searchTreatmentInfo (diagnosis.js lines 337-362): sends the augmented
query, returns the mapped items when present and non-empty, the empty
list when absent or empty, and the empty list on any caught error. -/
def searchTreatmentInfo (query : String) (upstream : SearchUpstream) : List SearchItem :=
  let _searchQuery := searchQueryString query
  match upstream with
  | .failure => []
  | .success none => []
  | .success (some items) => if items.length > 0 then items else []

/-- The fixed five-point generic advisory template emitted by
generateTreatmentRecommendations when search returned no results
(diagnosis.js lines 367-375), with the disease info interpolated at the
top.  The template literal keeps the four indentation spaces of its
second line. -/
def genericRecommendations (diseaseInfo : String) : String :=
  "Based on the identified condition: " ++ diseaseInfo ++
    ", here are general recommendations:\n    \n" ++
    "1. **Immediate Action**: Remove affected plant parts and dispose of them properly\n" ++
    "2. **Prevention**: Ensure proper spacing between plants for air circulation\n" ++
    "3. **Treatment**: Consider organic fungicides or pesticides appropriate for the condition\n" ++
    "4. **Monitoring**: Check plants regularly for early detection\n" ++
    "5. **Soil Management**: Ensure proper drainage and soil health\n\n" ++
    "Please consult with local agricultural extension officers for specific treatment options available in your area."

/-- One search result rendered by the forEach loop of
generateTreatmentRecommendations; idx counts from 0 and is displayed
incremented by one. -/
def renderSearchResult (idx : Nat) (r : SearchItem) : String :=
  "**" ++ toString (idx + 1) ++ ". " ++ r.title ++ "**\n" ++
    r.snippet ++ "\n" ++ "Source: " ++ r.link ++ "\n\n"

/-- The fixed closing-advice block appended after the itemized search
results (diagnosis.js lines 386-390). -/
def additionalRecommendations : String :=
  "\n**Additional Recommendations:**\n" ++
    "• Consult local agricultural extension services\n" ++
    "• Consider integrated pest management approaches\n" ++
    "• Monitor weather conditions that may worsen the condition\n" ++
    "• Keep records of treatments applied for future reference"

/-- generateTreatmentRecommendations (diagnosis.js lines 365-393): with no
search results the generic template; otherwise the header, every result
in received order, and the closing-advice block. -/
def generateTreatmentRecommendations (searchResults : List SearchItem)
    (diseaseInfo : String) : String :=
  if searchResults.length = 0 then genericRecommendations diseaseInfo
  else
    "**Treatment Recommendations for " ++ diseaseInfo ++ ":**\n\n" ++
      String.join (searchResults.enum.map (fun p => renderSearchResult p.1 p.2)) ++
      additionalRecommendations

/-- Observable result of createDiagnosis: the 400 missing-input rejection,
a 500 from a failed save (mongoose requires a truthy language string and
the validation error is caught by the handler), or the 201 with the
stored document and the search result count. -/
inductive CreateResult where
  | missingInput
  | saveError
  | created (diagnosis : Diagnosis) (searchResultsCount : Nat)
deriving DecidableEq, Repr

/-- createDiagnosis (diagnosis.js lines 395-466).  Rejects when neither
input is truthy, merges the truthy inputs into the narrative (one of
three branches), derives the search query, obtains search results
(upstream abstracts the Google call), generates recommendations for the
first truthy of imageResult and voiceInput, and saves the document whose
combinedResult is narrative, blank line, recommendations.  The save
succeeds exactly when the required language field is truthy (mongoose
required rejects undefined, null and the empty string); on success the
document is appended to the store. -/
def createDiagnosis (voiceInput imageResult language : Option String)
    (upstream : SearchUpstream) (store : List Diagnosis) (now : Nat) :
    CreateResult × List Diagnosis :=
  if !(strTruthy imageResult) && !(strTruthy voiceInput) then
    (.missingInput, store)
  else
    let combinedResult :=
      if strTruthy voiceInput && strTruthy imageResult then
        "Symptoms reported: " ++ voiceInput.getD "" ++
          ". Visual analysis suggests: " ++ imageResult.getD "" ++ "."
      else if strTruthy voiceInput then
        "Symptoms reported: " ++ voiceInput.getD "" ++
          ". Awaiting image input for complete diagnosis."
      else
        "Visual analysis suggests: " ++ imageResult.getD "" ++
          ". No additional symptoms reported."
    let searchQuery :=
      if strTruthy voiceInput && strTruthy imageResult then
        voiceInput.getD "" ++ " " ++ imageResult.getD ""
      else if strTruthy voiceInput then voiceInput.getD ""
      else imageResult.getD ""
    let searchResults := searchTreatmentInfo searchQuery upstream
    let treatmentRecommendations :=
      generateTreatmentRecommendations searchResults (firstTruthy imageResult voiceInput)
    let comprehensiveDiagnosis := combinedResult ++ "\n\n" ++ treatmentRecommendations
    if strTruthy language then
      let newDiagnosis : Diagnosis :=
        { voiceInput := voiceInput
          imageResult := imageResult
          combinedResult := comprehensiveDiagnosis
          localizedText := none
          audioURL := none
          language := language.getD ""
          createdAt := now }
      (.created newDiagnosis searchResults.length, store ++ [newDiagnosis])
    else
      (.saveError, store)

end DiagnosisModel

namespace UploadController

/-- Supported languages object of src/controllers/upload.js (lines 10-18):
same codes and display names as DiagnosisModel.SUPPORTED_LANGUAGES. -/
def supportedLanguages (language : String) : Option String :=
  DiagnosisModel.SUPPORTED_LANGUAGES language

/-- Response shape returned by the ghananlp-node transcribeAudio call:
optional transcribedText and text fields. -/
structure AsrLibResponse where
  transcribedText : Option String
  text : Option String
deriving DecidableEq, Repr

/-- handleVoiceUpload of src/controllers/upload.js (lines 21-111), the
revision wired to POST /upload/voice by src/routes/upload.js.  Checks the
API key configuration, the uploaded file, resolves and validates the
language, calls the ASR client (asrOutcome; thrown errors are answered
with a 401/503/500, collapsed to one 500 status here), and on success
answers 200 with transcription set to the first truthy of the
transcribedText and text fields of the response, defaulting to the empty
string. -/
def handleVoiceUpload (apiKeyConfigured hasFile : Bool)
    (bodyLanguage queryLanguage : Option String)
    (asrOutcome : Except Unit AsrLibResponse) : DiagnosisModel.VoiceUploadResult :=
  if !apiKeyConfigured then .errorRes 500 "Ghana NLP API not configured"
  else if !hasFile then .errorRes 400 "No audio file uploaded."
  else
    let language := jsOrStr bodyLanguage (jsOrStr queryLanguage "tw")
    match supportedLanguages language with
    | none => .errorRes 400 ("Unsupported language: " ++ language)
    | some languageName =>
      match asrOutcome with
      | .error _ => .errorRes 500 "Voice transcription failed."
      | .ok response =>
        .okRes (firstTruthy response.transcribedText response.text) language languageName

end UploadController

namespace OutputController

/-- SPEAKER_MAPPING of src/controllers/output.js (lines 10-14): the
registered synthesized voices per language code, none for a language
without voices. -/
def SPEAKER_MAPPING (language : String) : Option (List String) :=
  if language = "tw" then
    some ["twi_speaker_4", "twi_speaker_5", "twi_speaker_6",
          "twi_speaker_7", "twi_speaker_8", "twi_speaker_9"]
  else if language = "ki" then some ["kikuyu_speaker_1", "kikuyu_speaker_5"]
  else if language = "ee" then some ["ewe_speaker_3", "ewe_speaker_4"]
  else none

/-- ASR_SUPPORTED_LANGUAGES of src/controllers/output.js (line 17). -/
def ASR_SUPPORTED_LANGUAGES : List String :=
  ["tw", "gaa", "dag", "yo", "ee", "ki", "ha"]

/-- getDefaultSpeaker (output.js lines 20-23): the first registered voice
of the language, null when the language has none. -/
def getDefaultSpeaker (language : String) : Option String :=
  match SPEAKER_MAPPING language with
  | some speakers => speakers.head?
  | none => none

/-- The 400 body sent by localizeOutput for a language without registered
voices (output.js lines 217-221); it names the supported languages. -/
def unsupportedTtsMessage (language : String) : String :=
  "Language " ++ singleQuote ++ language ++ singleQuote ++
    " is not supported for TTS. Supported languages: " ++ "tw (Twi), ki (Kikuyu), ee (Ewe)"

/-- The request body of one speech-synthesis call (output.js lines
243-247): text, language and the selected speaker id. -/
structure TtsCall where
  text : String
  language : String
  speaker_id : Option String
deriving DecidableEq, Repr

/-- Observable result of localizeOutput: the 400 missing-id rejection,
the 404, the 400 unsupported-language rejection with its body, the 500 on
a failed synthesis call, or the 200 carrying localizedText, audioURL, the
selected speaker and the language. -/
inductive LocalizeResult where
  | missingId
  | notFound
  | unsupportedLanguage (errMsg : String)
  | ttsFailed
  | ok (localizedText : String) (audioURL : String)
       (speakerId : Option String) (language : String)
deriving DecidableEq, Repr

/-- The localized text used by localizeOutput (output.js lines 223-237):
translation is attempted only when a translator endpoint is configured
and the diagnosis language is not en; a thrown translation error is
caught and the untranslated combinedResult kept. -/
def localizedTextFor (translationConfigured : Bool)
    (translationOutcome : Except Unit String) (diagnosis : Diagnosis) : String :=
  if translationConfigured && diagnosis.language != "en" then
    match translationOutcome with
    | .ok out => out
    | .error _ => diagnosis.combinedResult
  else diagnosis.combinedResult

/-- Full observable outcome of one localizeOutput run: the response, the
store afterwards, and the speech-synthesis request that was sent (none
when the synthesizer was never invoked). -/
structure LocalizeOutcome where
  result : LocalizeResult
  store : List Diagnosis
  ttsCall : Option TtsCall
deriving DecidableEq, Repr

/-- localizeOutput of src/controllers/output.js (lines 203-289).
Requires a diagnosisId, loads the diagnosis (the store index stands for
the document id), rejects languages without registered voices before any
outbound call, attempts translation only when a translator endpoint is
configured and the language is not en (translationOutcome abstracts that
call; on a thrown translation error the untranslated combinedResult is
kept), selects the explicit speaker or the language default, performs the
synthesis call (ttsOutcome carries the base64 audio body on success), and
on success persists localizedText and audioURL back onto the same record
and answers 200. -/
def localizeOutput (diagnosisId : Option Nat) (speakerId : Option String)
    (translationConfigured : Bool) (translationOutcome : Except Unit String)
    (ttsOutcome : Except Unit String) (store : List Diagnosis) : LocalizeOutcome :=
  match diagnosisId with
  | none => ⟨.missingId, store, none⟩
  | some i =>
    match store[i]? with
    | none => ⟨.notFound, store, none⟩
    | some diagnosis =>
      match SPEAKER_MAPPING diagnosis.language with
      | none => ⟨.unsupportedLanguage (unsupportedTtsMessage diagnosis.language), store, none⟩
      | some _ =>
        let localizedText := localizedTextFor translationConfigured translationOutcome diagnosis
        let selectedSpeakerId := jsOrOpt speakerId (getDefaultSpeaker diagnosis.language)
        let call : TtsCall := ⟨localizedText, diagnosis.language, selectedSpeakerId⟩
        match ttsOutcome with
        | .error _ => ⟨.ttsFailed, store, some call⟩
        | .ok audioBase64 =>
          let audioURL := "data:audio/wav;base64," ++ audioBase64
          let updated :=
            { diagnosis with
              localizedText := some localizedText
              audioURL := some audioURL }
          ⟨.ok localizedText audioURL selectedSpeakerId diagnosis.language,
            store.set i updated, some call⟩

/-- Observable result of processAudioAndLocalize: a 400 rejection, a 500
(ASR failure, the save of a blank required combinedResult, or a TTS
failure), or the 200 carrying the transcription, the localized text, the
optional audioURL and the reported speaker. -/
inductive ProcessAudioResult where
  | badRequest (errMsg : String)
  | processingFailed
  | ok (transcribedText localizedText : String)
       (audioURL : Option String) (speakerId : Option String)
deriving DecidableEq, Repr

/-- processAudioAndLocalize of src/controllers/output.js (lines 94-200).
Validates the language and the audio input, transcribes (asrOutcome),
saves a new Diagnosis whose combinedResult is the transcribed text — the
voiceInput and imageResult fields are never set and default to null; the
extra inputMethod and originalAudioSize fields are not in the schema and
are dropped — and, when the language has registered voices, synthesizes
audio (ttsOutcome) and updates the saved record with the audioURL.  A
blank transcription makes the required-field save throw, answered 500
with nothing stored; a TTS failure is answered 500 but the record already
saved in step 2 remains in the store. -/
def processAudioAndLocalize (language speakerId : Option String)
    (hasAudioInput : Bool) (asrOutcome : Except Unit String)
    (ttsOutcome : Except Unit String) (store : List Diagnosis) (now : Nat) :
    ProcessAudioResult × List Diagnosis :=
  if !(strTruthy language) then
    (.badRequest "Language parameter is required.", store)
  else
    let lang := language.getD ""
    if !(ASR_SUPPORTED_LANGUAGES.contains lang) then
      (.badRequest ("Language " ++ singleQuote ++ lang ++ singleQuote ++
        " is not supported for ASR."), store)
    else if !hasAudioInput then
      (.badRequest "Audio file or audio data is required.", store)
    else
      match asrOutcome with
      | .error _ => (.processingFailed, store)
      | .ok transcribedText =>
        if transcribedText = "" then (.processingFailed, store)
        else
          let diagnosis : Diagnosis :=
            { voiceInput := none
              imageResult := none
              combinedResult := transcribedText
              localizedText := none
              audioURL := none
              language := lang
              createdAt := now }
          let reportedSpeaker := jsOrOpt speakerId (getDefaultSpeaker lang)
          match SPEAKER_MAPPING lang with
          | none =>
            (.ok transcribedText transcribedText none reportedSpeaker,
              store ++ [diagnosis])
          | some _ =>
            match ttsOutcome with
            | .error _ => (.processingFailed, store ++ [diagnosis])
            | .ok audioBase64 =>
              let audioURL := "data:audio/wav;base64," ++ audioBase64
              (.ok transcribedText transcribedText (some audioURL) reportedSpeaker,
                store ++ [{ diagnosis with audioURL := some audioURL }])

end OutputController

/-- Invariant on a createDiagnosis result: whenever a document was
created, at least one of its voiceInput and imageResult fields is
non-null. -/
def createdHasInput : DiagnosisModel.CreateResult → Prop
  | .created d _ => d.voiceInput ≠ none ∨ d.imageResult ≠ none
  | _ => True

/-- Contract on a voice-upload result: a success response never carries
an empty transcription. -/
def successTranscriptionNonEmpty : DiagnosisModel.VoiceUploadResult → Prop
  | .okRes transcription _ _ => transcription ≠ ""
  | _ => True

/-- A sample stored diagnosis, used to instantiate theorems at concrete
inputs. -/
def sampleDiagnosis (language : String) : Diagnosis :=
  { voiceInput := none
    imageResult := some "maize blight"
    combinedResult := "narrative"
    localizedText := none
    audioURL := none
    language := language
    createdAt := 3 }

theorem strTruthy_ne_none {o : Option String} (h : strTruthy o = true) : o ≠ none := by
  cases o with
  | none => simp [strTruthy] at h
  | some s => simp

theorem strTruthy_some {s : String} (h : s ≠ "") : strTruthy (some s) = true := by
  simp [strTruthy, h]

theorem containsSubstring_of_eq (s pre mid post : String)
    (h : s = pre ++ mid ++ post) : containsSubstring s mid := by
  subst h
  exact ⟨pre.data, post.data, by simp [String.data_append]⟩

/-- C6: createDiagnosis called with neither voiceInput nor imageResult
always fails with the MissingInput 400 error and never reaches the store:
the store is returned unchanged, so no Diagnosis document is created or
modified on that path. -/
theorem createDiagnosis_no_inputs_rejected
    (language : Option String) (upstream : DiagnosisModel.SearchUpstream)
    (store : List Diagnosis) (now : Nat) :
    DiagnosisModel.createDiagnosis none none language upstream store now =
      (DiagnosisModel.CreateResult.missingInput, store) := rfl

/-- C10: createDiagnosis treats empty strings as absent inputs: whenever
voiceInput and imageResult are each either missing, null or the empty
string, the request is rejected with the MissingInput 400 error and the
store is unchanged, because the presence check uses JavaScript
falsiness. -/
theorem createDiagnosis_empty_strings_rejected
    (voiceInput imageResult : Option String)
    (hv : voiceInput = none ∨ voiceInput = some "")
    (hi : imageResult = none ∨ imageResult = some "")
    (language : Option String) (upstream : DiagnosisModel.SearchUpstream)
    (store : List Diagnosis) (now : Nat) :
    DiagnosisModel.createDiagnosis voiceInput imageResult language upstream store now =
      (DiagnosisModel.CreateResult.missingInput, store) := by
  have hv' : strTruthy voiceInput = false := by
    rcases hv with h | h <;> simp [h, strTruthy]
  have hi' : strTruthy imageResult = false := by
    rcases hi with h | h <;> simp [h, strTruthy]
  simp [DiagnosisModel.createDiagnosis, hv', hi']

theorem createDiagnosis_empty_strings_rejected_witness :
    DiagnosisModel.createDiagnosis (some "") (some "") (some "tw")
        DiagnosisModel.SearchUpstream.failure [] 0 =
      (DiagnosisModel.CreateResult.missingInput, []) :=
  createDiagnosis_empty_strings_rejected (some "") (some "")
    (Or.inr rfl) (Or.inr rfl) (some "tw") DiagnosisModel.SearchUpstream.failure [] 0

/-- C2 counterexample: processAudioAndLocalize is a code path that
creates and stores a Diagnosis document whose voiceInput and imageResult
are both null, so the claimed creation-time invariant does not hold for
every creating code path. -/
theorem processAudioAndLocalize_stores_inputless_record :
    ∃ d : Diagnosis,
      (OutputController.processAudioAndLocalize (some "gaa") none true
          (Except.ok "maize leaves are yellow") (Except.ok "") [] 7).2 = [d] ∧
        d.voiceInput = none ∧ d.imageResult = none ∧
        d.combinedResult = "maize leaves are yellow" ∧ d.language = "gaa" :=
  ⟨_, rfl, rfl, rfl, rfl, rfl⟩

/-- C2 (amended): every Diagnosis document stored by createDiagnosis has
at least one of voiceInput and imageResult non-null, and a createDiagnosis
call with neither present is rejected before a document is stored; the
audio path processAudioAndLocalize does not preserve this invariant. -/
theorem createDiagnosis_record_has_some_input
    (voiceInput imageResult language : Option String)
    (upstream : DiagnosisModel.SearchUpstream) (store : List Diagnosis) (now : Nat) :
    createdHasInput
      (DiagnosisModel.createDiagnosis voiceInput imageResult language upstream store now).1 := by
  by_cases hv : strTruthy voiceInput = true
  · by_cases hl : strTruthy language = true
    · simp only [DiagnosisModel.createDiagnosis, hv, hl, Bool.not_true, Bool.and_false,
        Bool.false_and, Bool.and_self, if_false, if_true, Bool.false_eq_true, ite_true, ite_false]
      simp only [createdHasInput]
      exact Or.inl (strTruthy_ne_none hv)
    · simp [DiagnosisModel.createDiagnosis, hv, hl, createdHasInput]
  · by_cases hi : strTruthy imageResult = true
    · by_cases hl : strTruthy language = true
      · simp only [DiagnosisModel.createDiagnosis, hv, hi, hl, Bool.not_true, Bool.not_false,
          Bool.and_false, Bool.false_and, Bool.true_and, Bool.and_true, Bool.and_self,
          if_false, if_true, Bool.false_eq_true, ite_true, ite_false]
        simp only [createdHasInput]
        exact Or.inr (strTruthy_ne_none hi)
      · simp [DiagnosisModel.createDiagnosis, hv, hi, hl, createdHasInput]
    · simp [DiagnosisModel.createDiagnosis, hv, hi, createdHasInput]

/-- C7 counterexample: the handleVoiceUpload revision of
src/controllers/upload.js, the one wired to POST /upload/voice, answers
200 with an empty transcription when the upstream response carries
neither a transcribedText nor a text field, so the upload/voice operation
can return an empty transcript on success. -/
theorem uploadHandleVoiceUpload_empty_success :
    UploadController.handleVoiceUpload true true none none
        (Except.ok ⟨none, none⟩) =
      DiagnosisModel.VoiceUploadResult.okRes "" "tw" "Twi" := rfl

/-- C7 (amended): the handleVoiceUpload revision of
src/okuani-adamfo-api-main/models/diagnosis.js never returns an empty
transcript on success — every blank upstream text is answered with a 500
error instead — but the revision of src/controllers/upload.js exposed at
POST /upload/voice does not satisfy this contract. -/
theorem mainHandleVoiceUpload_never_empty_on_success
    (hasFile isAudioMime : Bool) (bodyLanguage queryLanguage : Option String)
    (asrOutcome : Except Unit DiagnosisModel.AsrV2Data) :
    successTranscriptionNonEmpty
      (DiagnosisModel.handleVoiceUpload hasFile isAudioMime bodyLanguage queryLanguage
        asrOutcome) := by
  unfold DiagnosisModel.handleVoiceUpload
  by_cases h1 : (!hasFile) = true
  · simp [h1, successTranscriptionNonEmpty]
  by_cases h2 : (!isAudioMime) = true
  · simp [h1, h2, successTranscriptionNonEmpty]
  cases hsl : DiagnosisModel.SUPPORTED_LANGUAGES (jsOrStr bodyLanguage (jsOrStr queryLanguage "tw")) with
  | none => simp [h1, h2, hsl, successTranscriptionNonEmpty]
  | some languageName =>
    cases asrOutcome with
    | error e => simp [h1, h2, hsl, successTranscriptionNonEmpty]
    | ok asrData =>
      cases hext : DiagnosisModel.extractTranscription asrData with
      | none => simp [h1, h2, hsl, hext, successTranscriptionNonEmpty]
      | some transcription =>
        by_cases ht : transcription.trim = ""
        · simp [h1, h2, hsl, hext, ht, successTranscriptionNonEmpty]
        · simp [h1, h2, hsl, hext, ht, successTranscriptionNonEmpty]

/-- C1: for every pair of non-null, non-empty voiceInput and imageResult,
createDiagnosis creates a document whose combinedResult contains both
input strings verbatim, with the voice symptoms stated before the visual
analysis (the Symptoms reported then Visual analysis suggests order),
followed by a blank line and the recommendations text. -/
theorem createDiagnosis_both_inputs_verbatim
    (v i l : String) (hv : v ≠ "") (hi : i ≠ "") (hl : l ≠ "")
    (upstream : DiagnosisModel.SearchUpstream) (store : List Diagnosis) (now : Nat) :
    ∃ (d : Diagnosis) (n : Nat),
      DiagnosisModel.createDiagnosis (some v) (some i) (some l) upstream store now =
        (DiagnosisModel.CreateResult.created d n, store ++ [d]) ∧
      d.combinedResult =
        "Symptoms reported: " ++ v ++ ". Visual analysis suggests: " ++ i ++ "." ++
          "\n\n" ++
          DiagnosisModel.generateTreatmentRecommendations
            (DiagnosisModel.searchTreatmentInfo (v ++ " " ++ i) upstream) i ∧
      containsSubstring d.combinedResult v ∧
      containsSubstring d.combinedResult i := by
  have hvT := strTruthy_some hv
  have hiT := strTruthy_some hi
  have hlT := strTruthy_some hl
  have hrun :
      DiagnosisModel.createDiagnosis (some v) (some i) (some l) upstream store now =
        (DiagnosisModel.CreateResult.created
          { voiceInput := some v
            imageResult := some i
            combinedResult :=
              "Symptoms reported: " ++ v ++ ". Visual analysis suggests: " ++ i ++ "." ++
                "\n\n" ++
                DiagnosisModel.generateTreatmentRecommendations
                  (DiagnosisModel.searchTreatmentInfo (v ++ " " ++ i) upstream) i
            localizedText := none
            audioURL := none
            language := l
            createdAt := now }
          (DiagnosisModel.searchTreatmentInfo (v ++ " " ++ i) upstream).length,
        store ++
          [{ voiceInput := some v
             imageResult := some i
             combinedResult :=
               "Symptoms reported: " ++ v ++ ". Visual analysis suggests: " ++ i ++ "." ++
                 "\n\n" ++
                 DiagnosisModel.generateTreatmentRecommendations
                   (DiagnosisModel.searchTreatmentInfo (v ++ " " ++ i) upstream) i
             localizedText := none
             audioURL := none
             language := l
             createdAt := now }]) := by
    simp [DiagnosisModel.createDiagnosis, firstTruthy, hvT, hiT, hlT]
  refine ⟨_, _, hrun, rfl, ?_, ?_⟩
  · exact containsSubstring_of_eq _ "Symptoms reported: " v
      (". Visual analysis suggests: " ++ i ++ "." ++ "\n\n" ++
        DiagnosisModel.generateTreatmentRecommendations
          (DiagnosisModel.searchTreatmentInfo (v ++ " " ++ i) upstream) i)
      (by simp [String.append_assoc])
  · exact containsSubstring_of_eq _
      ("Symptoms reported: " ++ v ++ ". Visual analysis suggests: ") i
      ("." ++ "\n\n" ++
        DiagnosisModel.generateTreatmentRecommendations
          (DiagnosisModel.searchTreatmentInfo (v ++ " " ++ i) upstream) i)
      (by simp [String.append_assoc])

theorem createDiagnosis_both_inputs_verbatim_witness :
    ∃ (d : Diagnosis) (n : Nat),
      DiagnosisModel.createDiagnosis (some "leaves turning yellow") (some "maize streak")
          (some "tw") DiagnosisModel.SearchUpstream.failure [] 5 =
        (DiagnosisModel.CreateResult.created d n, [] ++ [d]) ∧
      d.combinedResult =
        "Symptoms reported: " ++ "leaves turning yellow" ++ ". Visual analysis suggests: " ++
          "maize streak" ++ "." ++ "\n\n" ++
          DiagnosisModel.generateTreatmentRecommendations
            (DiagnosisModel.searchTreatmentInfo ("leaves turning yellow" ++ " " ++ "maize streak")
              DiagnosisModel.SearchUpstream.failure) "maize streak" ∧
      containsSubstring d.combinedResult "leaves turning yellow" ∧
      containsSubstring d.combinedResult "maize streak" :=
  createDiagnosis_both_inputs_verbatim "leaves turning yellow" "maize streak" "tw"
    (by decide) (by decide) (by decide) DiagnosisModel.SearchUpstream.failure [] 5

/-- C3: searchTreatmentInfo never propagates an error to its caller: any
thrown failure (network error, non-2xx response, malformed body) and any
response without usable items yields the empty sequence, and in that case
createDiagnosis still succeeds and its combinedResult ends with the fixed
five-point generic advisory template. -/
theorem searchTreatmentInfo_never_fails
    (query v l : String) (hv : v ≠ "") (hl : l ≠ "")
    (store : List Diagnosis) (now : Nat) :
    DiagnosisModel.searchTreatmentInfo query DiagnosisModel.SearchUpstream.failure = [] ∧
    DiagnosisModel.searchTreatmentInfo query (DiagnosisModel.SearchUpstream.success none) = [] ∧
    DiagnosisModel.searchTreatmentInfo query
      (DiagnosisModel.SearchUpstream.success (some [])) = [] ∧
    ∃ d : Diagnosis,
      DiagnosisModel.createDiagnosis (some v) none (some l)
          DiagnosisModel.SearchUpstream.failure store now =
        (DiagnosisModel.CreateResult.created d 0, store ++ [d]) ∧
      d.combinedResult =
        "Symptoms reported: " ++ v ++ ". Awaiting image input for complete diagnosis." ++
          "\n\n" ++ DiagnosisModel.genericRecommendations v ∧
      endsWithString d.combinedResult (DiagnosisModel.genericRecommendations v) := by
  have hvT := strTruthy_some hv
  have hlT := strTruthy_some hl
  refine ⟨rfl, rfl, rfl, ?_⟩
  have hrun :
      DiagnosisModel.createDiagnosis (some v) none (some l)
          DiagnosisModel.SearchUpstream.failure store now =
        (DiagnosisModel.CreateResult.created
          { voiceInput := some v
            imageResult := none
            combinedResult :=
              "Symptoms reported: " ++ v ++ ". Awaiting image input for complete diagnosis." ++
                "\n\n" ++ DiagnosisModel.genericRecommendations v
            localizedText := none
            audioURL := none
            language := l
            createdAt := now } 0,
        store ++
          [{ voiceInput := some v
             imageResult := none
             combinedResult :=
               "Symptoms reported: " ++ v ++ ". Awaiting image input for complete diagnosis." ++
                 "\n\n" ++ DiagnosisModel.genericRecommendations v
             localizedText := none
             audioURL := none
             language := l
             createdAt := now }]) := by
    simp [DiagnosisModel.createDiagnosis, firstTruthy, strTruthy, hv, hl,
      DiagnosisModel.searchTreatmentInfo, DiagnosisModel.generateTreatmentRecommendations]
  refine ⟨_, hrun, rfl, ?_⟩
  show (DiagnosisModel.genericRecommendations v).data <:+
    (("Symptoms reported: " ++ v ++ ". Awaiting image input for complete diagnosis." ++
      "\n\n") ++ DiagnosisModel.genericRecommendations v).data
  rw [String.data_append]
  exact List.suffix_append _ _

theorem searchTreatmentInfo_never_fails_witness :
    DiagnosisModel.searchTreatmentInfo "q" DiagnosisModel.SearchUpstream.failure = [] ∧
    DiagnosisModel.searchTreatmentInfo "q" (DiagnosisModel.SearchUpstream.success none) = [] ∧
    DiagnosisModel.searchTreatmentInfo "q"
      (DiagnosisModel.SearchUpstream.success (some [])) = [] ∧
    ∃ d : Diagnosis,
      DiagnosisModel.createDiagnosis (some "leaves turning yellow") none (some "tw")
          DiagnosisModel.SearchUpstream.failure [] 3 =
        (DiagnosisModel.CreateResult.created d 0, [] ++ [d]) ∧
      d.combinedResult =
        "Symptoms reported: " ++ "leaves turning yellow" ++
          ". Awaiting image input for complete diagnosis." ++
          "\n\n" ++ DiagnosisModel.genericRecommendations "leaves turning yellow" ∧
      endsWithString d.combinedResult
        (DiagnosisModel.genericRecommendations "leaves turning yellow") :=
  searchTreatmentInfo_never_fails "q" "leaves turning yellow" "tw"
    (by decide) (by decide) [] 3

/-- C4: for every localization request whose diagnosis language has no
entry in the speaker mapping, localizeOutput fails with the
unsupported-language 400 error whose body names the supported languages,
the store is unchanged, and the speech synthesizer is never invoked in
that run. -/
theorem localizeOutput_unsupported_language
    (i : Nat) (store : List Diagnosis) (d : Diagnosis)
    (hd : store[i]? = some d)
    (hm : OutputController.SPEAKER_MAPPING d.language = none)
    (speakerId : Option String) (translationConfigured : Bool)
    (translationOutcome ttsOutcome : Except Unit String) :
    OutputController.localizeOutput (some i) speakerId translationConfigured
        translationOutcome ttsOutcome store =
      ⟨OutputController.LocalizeResult.unsupportedLanguage
          (OutputController.unsupportedTtsMessage d.language), store, none⟩ ∧
    containsSubstring (OutputController.unsupportedTtsMessage d.language)
      "tw (Twi), ki (Kikuyu), ee (Ewe)" := by
  constructor
  · simp [OutputController.localizeOutput, hd, hm]
  · exact containsSubstring_of_eq _
      ("Language " ++ singleQuote ++ d.language ++ singleQuote ++
        " is not supported for TTS. Supported languages: ")
      "tw (Twi), ki (Kikuyu), ee (Ewe)" ""
      (by simp [OutputController.unsupportedTtsMessage, String.append_assoc])

theorem localizeOutput_unsupported_language_witness :
    OutputController.localizeOutput (some 0) none true (Except.error ())
        (Except.ok "QQ==") [sampleDiagnosis "fr"] =
      ⟨OutputController.LocalizeResult.unsupportedLanguage
          (OutputController.unsupportedTtsMessage (sampleDiagnosis "fr").language),
        [sampleDiagnosis "fr"], none⟩ ∧
    containsSubstring (OutputController.unsupportedTtsMessage (sampleDiagnosis "fr").language)
      "tw (Twi), ki (Kikuyu), ee (Ewe)" :=
  localizeOutput_unsupported_language 0 [sampleDiagnosis "fr"] (sampleDiagnosis "fr")
    rfl rfl none true (Except.error ()) (Except.ok "QQ==")

/-- C5: when the translation step fails but speech synthesis succeeds,
localizeOutput still succeeds with a non-null audioURL, and both the
synthesized and the persisted localizedText equal the untranslated
combinedResult of the diagnosis; when synthesis also fails, the run fails
(translation failure is non-fatal, synthesis failure is fatal). -/
theorem localizeOutput_translation_failure_nonfatal
    (i : Nat) (store : List Diagnosis) (d : Diagnosis) (voices : List String)
    (hd : store[i]? = some d)
    (hm : OutputController.SPEAKER_MAPPING d.language = some voices)
    (hen : d.language ≠ "en")
    (speakerId : Option String) (audioBase64 : String) :
    OutputController.localizeOutput (some i) speakerId true (Except.error ())
        (Except.ok audioBase64) store =
      ⟨OutputController.LocalizeResult.ok d.combinedResult
          ("data:audio/wav;base64," ++ audioBase64)
          (jsOrOpt speakerId (OutputController.getDefaultSpeaker d.language)) d.language,
        store.set i
          { d with
            localizedText := some d.combinedResult
            audioURL := some ("data:audio/wav;base64," ++ audioBase64) },
        some ⟨d.combinedResult, d.language,
          jsOrOpt speakerId (OutputController.getDefaultSpeaker d.language)⟩⟩ ∧
    (OutputController.localizeOutput (some i) speakerId true (Except.error ())
        (Except.error ()) store).result = OutputController.LocalizeResult.ttsFailed := by
  constructor
  · simp [OutputController.localizeOutput, OutputController.localizedTextFor, hd, hm, hen]
  · simp [OutputController.localizeOutput, hd, hm]

theorem localizeOutput_translation_failure_nonfatal_witness :
    OutputController.localizeOutput (some 0) none true (Except.error ())
        (Except.ok "QQ==") [sampleDiagnosis "tw"] =
      ⟨OutputController.LocalizeResult.ok (sampleDiagnosis "tw").combinedResult
          ("data:audio/wav;base64," ++ "QQ==")
          (jsOrOpt none (OutputController.getDefaultSpeaker (sampleDiagnosis "tw").language))
          (sampleDiagnosis "tw").language,
        [sampleDiagnosis "tw"].set 0
          { sampleDiagnosis "tw" with
            localizedText := some (sampleDiagnosis "tw").combinedResult
            audioURL := some ("data:audio/wav;base64," ++ "QQ==") },
        some ⟨(sampleDiagnosis "tw").combinedResult, (sampleDiagnosis "tw").language,
          jsOrOpt none (OutputController.getDefaultSpeaker (sampleDiagnosis "tw").language)⟩⟩ ∧
    (OutputController.localizeOutput (some 0) none true (Except.error ())
        (Except.error ()) [sampleDiagnosis "tw"]).result =
      OutputController.LocalizeResult.ttsFailed :=
  localizeOutput_translation_failure_nonfatal 0 [sampleDiagnosis "tw"] (sampleDiagnosis "tw")
    ["twi_speaker_4", "twi_speaker_5", "twi_speaker_6",
     "twi_speaker_7", "twi_speaker_8", "twi_speaker_9"]
    rfl rfl (by decide) none "QQ=="

/-- C8: with speakerId omitted the voice sent to the synthesizer is the
first entry of the speaker list registered for the diagnosis language,
again on a repeated call after a successful run; with an explicit
non-empty speakerId, that speakerId is used instead. -/
theorem localizeOutput_default_speaker
    (i : Nat) (store : List Diagnosis) (d : Diagnosis) (voices : List String)
    (hd : store[i]? = some d)
    (hm : OutputController.SPEAKER_MAPPING d.language = some voices)
    (translationConfigured : Bool) (translationOutcome ttsOutcome : Except Unit String) :
    ((OutputController.localizeOutput (some i) none translationConfigured
        translationOutcome ttsOutcome store).ttsCall).map OutputController.TtsCall.speaker_id =
      some voices.head? ∧
    (∀ s : String, s ≠ "" →
      ((OutputController.localizeOutput (some i) (some s) translationConfigured
          translationOutcome ttsOutcome store).ttsCall).map OutputController.TtsCall.speaker_id =
        some (some s)) ∧
    (∀ audioBase64 : String,
      ((OutputController.localizeOutput (some i) none translationConfigured
          translationOutcome ttsOutcome
          ((OutputController.localizeOutput (some i) none translationConfigured
              translationOutcome (Except.ok audioBase64) store).store)).ttsCall).map
        OutputController.TtsCall.speaker_id = some voices.head?) := by
  obtain ⟨hlen, -⟩ := List.getElem?_eq_some_iff.mp hd
  refine ⟨?_, ?_, ?_⟩
  · cases ttsOutcome <;>
      simp [OutputController.localizeOutput, hd, hm, jsOrOpt, strTruthy,
        OutputController.getDefaultSpeaker]
  · intro s hs
    cases ttsOutcome <;>
      simp [OutputController.localizeOutput, hd, hm, jsOrOpt, strTruthy, hs]
  · intro audioBase64
    cases ttsOutcome <;>
      simp [OutputController.localizeOutput, hd, hm, jsOrOpt, strTruthy,
        OutputController.getDefaultSpeaker, List.getElem?_set_self hlen]

theorem localizeOutput_default_speaker_witness :
    ((OutputController.localizeOutput (some 0) none false (Except.error ())
        (Except.ok "QQ==") [sampleDiagnosis "tw"]).ttsCall).map
      OutputController.TtsCall.speaker_id =
      some (["twi_speaker_4", "twi_speaker_5", "twi_speaker_6",
             "twi_speaker_7", "twi_speaker_8", "twi_speaker_9"] : List String).head? ∧
    ("twi_speaker_7" : String) ≠ "" ∧
    ((OutputController.localizeOutput (some 0) (some "twi_speaker_7") false (Except.error ())
        (Except.ok "QQ==") [sampleDiagnosis "tw"]).ttsCall).map
      OutputController.TtsCall.speaker_id = some (some "twi_speaker_7") ∧
    ((OutputController.localizeOutput (some 0) none false (Except.error ())
        (Except.ok "QQ==")
        ((OutputController.localizeOutput (some 0) none false (Except.error ())
            (Except.ok "QQ==") [sampleDiagnosis "tw"]).store)).ttsCall).map
      OutputController.TtsCall.speaker_id =
      some (["twi_speaker_4", "twi_speaker_5", "twi_speaker_6",
             "twi_speaker_7", "twi_speaker_8", "twi_speaker_9"] : List String).head? := by
  have h := localizeOutput_default_speaker 0 [sampleDiagnosis "tw"] (sampleDiagnosis "tw")
    ["twi_speaker_4", "twi_speaker_5", "twi_speaker_6",
     "twi_speaker_7", "twi_speaker_8", "twi_speaker_9"]
    rfl rfl false (Except.error ()) (Except.ok "QQ==")
  exact ⟨h.1, by decide, h.2.1 "twi_speaker_7" (by decide), h.2.2 "QQ=="⟩

/-- C9: a successful localization writes only the localizedText and
audioURL fields of the targeted Diagnosis document: the store keeps its
length, every other document is unchanged, and the targeted document
keeps its position and its voiceInput, imageResult, combinedResult,
language and createdAt fields. -/
theorem localizeOutput_frame
    (i : Nat) (store : List Diagnosis) (d : Diagnosis) (voices : List String)
    (hd : store[i]? = some d)
    (hm : OutputController.SPEAKER_MAPPING d.language = some voices)
    (speakerId : Option String) (translationConfigured : Bool)
    (translationOutcome : Except Unit String) (audioBase64 : String) :
    (OutputController.localizeOutput (some i) speakerId translationConfigured
        translationOutcome (Except.ok audioBase64) store).store.length = store.length ∧
    (∀ j : Nat, j ≠ i →
      (OutputController.localizeOutput (some i) speakerId translationConfigured
          translationOutcome (Except.ok audioBase64) store).store[j]? = store[j]?) ∧
    (OutputController.localizeOutput (some i) speakerId translationConfigured
        translationOutcome (Except.ok audioBase64) store).store[i]? =
      some { d with
        localizedText :=
          some (OutputController.localizedTextFor translationConfigured translationOutcome d)
        audioURL := some ("data:audio/wav;base64," ++ audioBase64) } ∧
    ({ d with
        localizedText :=
          some (OutputController.localizedTextFor translationConfigured translationOutcome d)
        audioURL := some ("data:audio/wav;base64," ++ audioBase64) } : Diagnosis).voiceInput =
      d.voiceInput ∧
    ({ d with
        localizedText :=
          some (OutputController.localizedTextFor translationConfigured translationOutcome d)
        audioURL := some ("data:audio/wav;base64," ++ audioBase64) } : Diagnosis).imageResult =
      d.imageResult ∧
    ({ d with
        localizedText :=
          some (OutputController.localizedTextFor translationConfigured translationOutcome d)
        audioURL := some ("data:audio/wav;base64," ++ audioBase64) } : Diagnosis).combinedResult =
      d.combinedResult ∧
    ({ d with
        localizedText :=
          some (OutputController.localizedTextFor translationConfigured translationOutcome d)
        audioURL := some ("data:audio/wav;base64," ++ audioBase64) } : Diagnosis).language =
      d.language ∧
    ({ d with
        localizedText :=
          some (OutputController.localizedTextFor translationConfigured translationOutcome d)
        audioURL := some ("data:audio/wav;base64," ++ audioBase64) } : Diagnosis).createdAt =
      d.createdAt := by
  obtain ⟨hlen, -⟩ := List.getElem?_eq_some_iff.mp hd
  refine ⟨?_, ?_, ?_, rfl, rfl, rfl, rfl, rfl⟩
  · simp [OutputController.localizeOutput, hd, hm]
  · intro j hj
    simp [OutputController.localizeOutput, hd, hm, List.getElem?_set_ne (Ne.symm hj)]
  · simp [OutputController.localizeOutput, hd, hm, List.getElem?_set_self hlen]

theorem localizeOutput_frame_witness :
    (OutputController.localizeOutput (some 0) none false (Except.error ())
        (Except.ok "QQ==") [sampleDiagnosis "tw"]).store.length =
      ([sampleDiagnosis "tw"] : List Diagnosis).length ∧
    (∀ j : Nat, j ≠ 0 →
      (OutputController.localizeOutput (some 0) none false (Except.error ())
          (Except.ok "QQ==") [sampleDiagnosis "tw"]).store[j]? =
        ([sampleDiagnosis "tw"] : List Diagnosis)[j]?) ∧
    (OutputController.localizeOutput (some 0) none false (Except.error ())
        (Except.ok "QQ==") [sampleDiagnosis "tw"]).store[0]? =
      some { sampleDiagnosis "tw" with
        localizedText :=
          some (OutputController.localizedTextFor false (Except.error ()) (sampleDiagnosis "tw"))
        audioURL := some ("data:audio/wav;base64," ++ "QQ==") } ∧
    ({ sampleDiagnosis "tw" with
        localizedText :=
          some (OutputController.localizedTextFor false (Except.error ()) (sampleDiagnosis "tw"))
        audioURL := some ("data:audio/wav;base64," ++ "QQ==") } : Diagnosis).voiceInput =
      (sampleDiagnosis "tw").voiceInput ∧
    ({ sampleDiagnosis "tw" with
        localizedText :=
          some (OutputController.localizedTextFor false (Except.error ()) (sampleDiagnosis "tw"))
        audioURL := some ("data:audio/wav;base64," ++ "QQ==") } : Diagnosis).imageResult =
      (sampleDiagnosis "tw").imageResult ∧
    ({ sampleDiagnosis "tw" with
        localizedText :=
          some (OutputController.localizedTextFor false (Except.error ()) (sampleDiagnosis "tw"))
        audioURL := some ("data:audio/wav;base64," ++ "QQ==") } : Diagnosis).combinedResult =
      (sampleDiagnosis "tw").combinedResult ∧
    ({ sampleDiagnosis "tw" with
        localizedText :=
          some (OutputController.localizedTextFor false (Except.error ()) (sampleDiagnosis "tw"))
        audioURL := some ("data:audio/wav;base64," ++ "QQ==") } : Diagnosis).language =
      (sampleDiagnosis "tw").language ∧
    ({ sampleDiagnosis "tw" with
        localizedText :=
          some (OutputController.localizedTextFor false (Except.error ()) (sampleDiagnosis "tw"))
        audioURL := some ("data:audio/wav;base64," ++ "QQ==") } : Diagnosis).createdAt =
      (sampleDiagnosis "tw").createdAt :=
  localizeOutput_frame 0 [sampleDiagnosis "tw"] (sampleDiagnosis "tw")
    ["twi_speaker_4", "twi_speaker_5", "twi_speaker_6",
     "twi_speaker_7", "twi_speaker_8", "twi_speaker_9"]
    rfl rfl none false (Except.error ()) "QQ=="
